import Mathlib

/-!
Verification of the interview-ai backend (src/backend/agent.py, app.py,
summary_agent.py) against its natural-language specification.

The Python source is shallowly embedded: pure string manipulation is
modelled over `List Char`, stateful handlers become explicit functions on
an `InterviewContext` record, I/O outcomes (LLM calls, TTS calls) are
passed in as `Except Exc` values, and side effects of the finalization
pipeline are recorded as an explicit effect trace.  All recursive
definitions use structural recursion on an explicit fuel argument so that
every definition evaluates by kernel reduction.
-/

set_option maxRecDepth 4000

/- ============================================================
   Python string primitives (builtins used by the source)
   ============================================================ -/

/-- Python whitespace characters, as used by str.split(), str.strip() and
the regex class \s (ASCII range): space, tab, newline, carriage return,
vertical tab, form feed. -/
def pyIsSpace (c : Char) : Bool :=
  c = ' ' || c = '\t' || c = '\n' || c = '\r' || c = '\x0b' || c = '\x0c'

/-- Python str.lower() restricted to ASCII letters (all vocabulary entries
in the source are ASCII). -/
def pyLower (s : List Char) : List Char :=
  s.map Char.toLower

/-- Python str.strip(): remove leading and trailing whitespace. -/
def pyStrip (s : List Char) : List Char :=
  ((s.dropWhile pyIsSpace).reverse.dropWhile pyIsSpace).reverse

/-- Worker for `pySplit`; the fuel starts at the length of the list, which
suffices because every step consumes at least one character. -/
def pySplitAux : Nat → List Char → List (List Char)
  | 0, _ => []
  | fuel + 1, s =>
    match s.dropWhile pyIsSpace with
    | [] => []
    | c :: t =>
      (c :: t.takeWhile (fun x => !pyIsSpace x)) ::
        pySplitAux fuel (t.dropWhile (fun x => !pyIsSpace x))

/-- Python str.split() with no arguments: split on runs of whitespace,
discarding empty tokens.  The head `c` of the dropWhile result is never a
whitespace character, so taking the token as `c` followed by the non-space
prefix of `t` agrees with Python. -/
def pySplit (s : List Char) : List (List Char) :=
  pySplitAux s.length s

/-- Python " ".join over a list of words. -/
def joinSpace : List (List Char) → List Char
  | [] => []
  | [w] => w
  | w :: ws => w ++ ' ' :: joinSpace ws

/-- Worker for `pyCount`: left-to-right non-overlapping occurrence count,
exactly the semantics of Python str.count for a non-empty pattern.  After
a match at `c :: t` the scan resumes past the matched text, i.e. at
`t.drop (p.length - 1)`. -/
def countAux : Nat → List Char → List Char → Nat
  | 0, _, _ => 0
  | fuel + 1, s, p =>
    match s with
    | [] => 0
    | c :: t =>
      if p.isPrefixOf (c :: t) then 1 + countAux fuel (t.drop (p.length - 1)) p
      else countAux fuel t p

/-- Python s.count(p).  For an empty pattern Python returns len(s)+1; every
call site in the source uses a non-empty pattern. -/
def pyCount (s p : List Char) : Nat :=
  if p = [] then s.length + 1 else countAux s.length s p

/-- Substring containment, the semantics of a Python regex alternation of
plain literals (re.search of literal alternatives). -/
def containsSub (s p : List Char) : Bool :=
  decide (0 < pyCount s p)

/-- Worker for `pyReplace`: replace non-overlapping occurrences of `pat`
left to right, as Python str.replace does. -/
def replaceAux : Nat → List Char → List Char → List Char → List Char
  | 0, s, _, _ => s
  | fuel + 1, s, pat, rep =>
    match s with
    | [] => []
    | c :: t =>
      if pat.isPrefixOf (c :: t) then rep ++ replaceAux fuel (t.drop (pat.length - 1)) pat rep
      else c :: replaceAux fuel t pat rep

/-- Python s.replace(pat, rep).  For an empty pattern Python interleaves
the replacement between all characters; every call site in the source uses
a non-empty pattern. -/
def pyReplace (s pat rep : List Char) : List Char :=
  if pat = [] then rep ++ s.foldr (fun c acc => c :: (rep ++ acc)) []
  else replaceAux s.length s pat rep

/-- Python list slicing l[:n], which also accepts a negative bound
(counting from the end). -/
def pyTake {α : Type} (n : Int) (l : List α) : List α :=
  if 0 ≤ n then l.take n.toNat else l.take ((l.length : Int) + n).toNat

/-- Python list slicing l[-n:]: the last `n` elements. -/
def lastN {α : Type} (n : Nat) (l : List α) : List α :=
  l.drop (l.length - n)

/-- ASCII word character, the regex class \w restricted to ASCII. -/
def isWordChar (c : Char) : Bool :=
  c.isAlphanum || c = '_'

/-- Match of a plain literal `p` at position `i` of `s`, with an optional
word-boundary requirement on the left (lb) and on the right (rb), the
semantics of the regex fragments \bp, p\b and \bp\b. -/
def regexLitMatchAt (s p : List Char) (lb rb : Bool) (i : Nat) : Bool :=
  p.isPrefixOf (s.drop i)
  && (!lb || i == 0 || !isWordChar ((s.take i).getLastD ' '))
  && (!rb || !isWordChar ((s.drop (i + p.length)).headD ' '))

/-- re.search of a single literal with optional word boundaries: does the
literal match at any position of the string. -/
def regexLitSearch (s p : List Char) (lb rb : Bool) : Bool :=
  (List.range (s.length + 1)).any (regexLitMatchAt s p lb rb)

/- ============================================================
   Data model (agent.py lines 64-113)
   ============================================================ -/

/-- Interview difficulty/style modes (agent.py class InterviewMode). -/
inductive InterviewMode where
  | friendly
  | standard
  | challenging
deriving DecidableEq, Repr, BEq

/-- Types of interviews supported (agent.py class InterviewType). -/
inductive InterviewType where
  | technical
  | behavioral
  | leadership
  | sales
  | customer_service
  | general
deriving DecidableEq, Repr, BEq

/-- The .value string of each InterviewType enum member. -/
def InterviewType.value : InterviewType → String
  | .technical => "technical"
  | .behavioral => "behavioral"
  | .leadership => "leadership"
  | .sales => "sales"
  | .customer_service => "customer_service"
  | .general => "general"

/-- Python InterviewType(s): enum lookup by value.  Returns none exactly
where Python raises ValueError (agent.py line 894, inside entrypoint). -/
def interviewTypeOfString (s : String) : Option InterviewType :=
  if s = "technical" then some .technical
  else if s = "behavioral" then some .behavioral
  else if s = "leadership" then some .leadership
  else if s = "sales" then some .sales
  else if s = "customer_service" then some .customer_service
  else if s = "general" then some .general
  else none

/-- Configuration for interview customization (agent.py dataclass
InterviewConfig, lines 84-93). -/
structure InterviewConfig where
  interview_type : InterviewType := .general
  mode : InterviewMode := .standard
  num_questions : Int := 5
  allow_adaptive_questions : Bool := true
  company_name : String := "Our Company"
  job_title : String := "Software Developer"
  candidate_resume_summary : Option String := none
deriving DecidableEq, Repr

/-- The default InterviewConfig produced by the dataclass defaults. -/
def defaultConfig : InterviewConfig := {}

/- ============================================================
   Question bank (agent.py lines 118-172)
   ============================================================ -/

def technicalQuestions : List String :=
  ["Walk me through your technical background and most relevant experience.",
   "Describe a complex technical problem you solved. What was your approach?",
   "How do you ensure code quality and maintainability in your projects?",
   "Tell me about a time you had to learn a new technology quickly.",
   "How do you approach debugging difficult issues?",
   "What\x27s your experience with system design and scalability?"]

def behavioralQuestions : List String :=
  ["Tell me about yourself and what brings you here today.",
   "Describe a situation where you had to work with a difficult team member.",
   "Give me an example of a time you failed. How did you handle it?",
   "Tell me about your greatest professional achievement.",
   "How do you prioritize tasks when everything seems urgent?",
   "Describe a time you had to adapt to significant change."]

def leadershipQuestions : List String :=
  ["Describe your leadership philosophy and style.",
   "Tell me about a difficult decision you made as a leader.",
   "How do you handle underperforming team members?",
   "Give me an example of how you\x27ve built and motivated a team.",
   "How do you balance being hands-on with delegating?",
   "Describe a time you had to manage conflict within your team."]

def salesQuestions : List String :=
  ["Walk me through your sales experience and biggest wins.",
   "Describe your approach to understanding customer needs.",
   "Tell me about a deal you lost. What did you learn?",
   "How do you handle rejection and maintain motivation?",
   "What\x27s your process for building relationships with clients?",
   "Give me an example of how you\x27ve exceeded your sales targets."]

def customerServiceQuestions : List String :=
  ["Tell me about your customer service experience.",
   "Describe a time you dealt with an extremely difficult customer.",
   "How do you handle stress during high-volume periods?",
   "Give me an example of going above and beyond for a customer.",
   "What does excellent customer service mean to you?",
   "How do you handle a situation where you can\x27t give the customer what they want?"]

def generalQuestions : List String :=
  ["Tell me about yourself and your background.",
   "What motivated you to apply for this position?",
   "Describe a challenge you faced at work and how you handled it.",
   "How do you handle feedback or criticism?",
   "Where do you see yourself in the next 3-5 years?"]

/-- The QUESTION_BANK dict (agent.py lines 118-166), as an association
list keyed by InterviewType. -/
def QUESTION_BANK : List (InterviewType × List String) :=
  [(.technical, technicalQuestions),
   (.behavioral, behavioralQuestions),
   (.leadership, leadershipQuestions),
   (.sales, salesQuestions),
   (.customer_service, customerServiceQuestions),
   (.general, generalQuestions)]

/-- QUESTION_BANK.get(t, QUESTION_BANK[InterviewType.GENERAL]) from
agent.py line 171; the GENERAL key is always present so the inner default
is never reached. -/
def questionBankGet (t : InterviewType) : List String :=
  ((QUESTION_BANK.lookup t).getD ((QUESTION_BANK.lookup InterviewType.general).getD []))

/-- get_questions_for_config (agent.py lines 169-172): select the bank for
the configured type (falling back to the general set for a type missing
from the bank) and truncate to the requested count. -/
def get_questions_for_config (config : InterviewConfig) : List String :=
  pyTake config.num_questions (questionBankGet config.interview_type)

/-- Configuration parsing of the entrypoint (agent.py lines 891-911)
restricted to the category path: InterviewType(category) is an enum
lookup that raises ValueError (modelled as none) for an unknown string;
only on success is the config built and the question list selected. -/
def entrypoint_questions (category : String) (num_questions : Int) :
    Option (List String) :=
  (interviewTypeOfString category).map (fun t =>
    get_questions_for_config
      { defaultConfig with interview_type := t, num_questions := num_questions })

/- ============================================================
   sanitize_for_tts (agent.py lines 178-213)
   ============================================================ -/

/-- The sequential str.replace calls of sanitize_for_tts
(agent.py lines 190-207), in source order. -/
def TTS_REPLACEMENTS : List (List Char × List Char) :=
  [(String.toList "for the this", String.toList "for this"),
   (String.toList "for the the", String.toList "for the"),
   (String.toList "at the the", String.toList "at the"),
   (String.toList "of the the", String.toList "of the"),
   (String.toList "to the the", String.toList "to the"),
   (String.toList "**", []),
   (String.toList "__", []),
   (String.toList "###", []),
   (String.toList "##", []),
   (String.toList "#", []),
   (String.toList "...", String.toList "."),
   (String.toList "..", String.toList "."),
   (String.toList "!!", String.toList "!"),
   (String.toList "??", String.toList "?")]

/-- Apply all replacements of sanitize_for_tts in order. -/
def ttsReplaceAll (t : List Char) : List Char :=
  TTS_REPLACEMENTS.foldl (fun s pr => pyReplace s pr.1 pr.2) t

/-- The final sentence-ending fix of sanitize_for_tts (agent.py lines
209-211): if the text is non-empty and its last character is not one of
'.', '!', '?', append a period. -/
def ensureEnding (t : List Char) : List Char :=
  match t.getLast? with
  | none => t
  | some c => if c = '.' || c = '!' || c = '?' then t else t ++ ['.']

/-- sanitize_for_tts (agent.py lines 178-213): empty input is returned
unchanged; otherwise whitespace runs are collapsed via
" ".join(text.split()), the fixed replacements are applied, a sentence
terminator is ensured, and the result is stripped. -/
def sanitize_for_tts (text : List Char) : List Char :=
  if text = [] then []
  else pyStrip (ensureEnding (ttsReplaceAll (joinSpace (pySplit text))))

/- ============================================================
   Exceptions and retry machinery (agent.py lines 26-58)
   ============================================================ -/

/-- Exception classes relevant to the retry policy: the livekit API errors
and asyncio.TimeoutError are the classes listed in
retry_if_exception_type (agent.py line 55); `otherError` stands for every
other exception class (ValueError, auth/validation errors, ...). -/
inductive Exc where
  | apiConnectionError (msg : String)
  | apiError (msg : String)
  | timeoutError
  | otherError (msg : String)
deriving DecidableEq, Repr

deriving instance DecidableEq for Except

/-- The retry predicate of retry_with_logging (agent.py line 55):
retry_if_exception_type((APIConnectionError, APIError,
asyncio.TimeoutError)). -/
def isRetryableExc : Exc → Bool
  | .otherError _ => false
  | _ => true

/-- Semantics of the tenacity retry decorator built by retry_with_logging
(agent.py lines 47-58): run attempt `i`; on success return after one call;
on a failure of a retryable class with retry budget left, back off and
retry; otherwise re-raise the error (reraise=True re-raises the last
error once attempts are exhausted).  Returns the result together with the
number of attempts made.  `fuel` is the number of retries still allowed
after the current attempt. -/
def retryLoop {α : Type} (isR : Exc → Bool) (f : Nat → Except Exc α) :
    Nat → Nat → Except Exc α × Nat
  | i, 0 =>
    match f i with
    | .ok a => (.ok a, 1)
    | .error e => (.error e, 1)
  | i, fuel + 1 =>
    match f i with
    | .ok a => (.ok a, 1)
    | .error e =>
      if isR e then
        let r := retryLoop isR f (i + 1) fuel
        (r.1, r.2 + 1)
      else (.error e, 1)

/-- retry_with_logging(max_attempts=3, ...) applied to a unit of work: the
first attempt plus at most two retries. -/
def retry_with_logging {α : Type} (f : Nat → Except Exc α) : Except Exc α × Nat :=
  retryLoop isRetryableExc f 0 2

/-- The try/except chain in the body of safe_say (agent.py lines 232-254):
asyncio.TimeoutError becomes APIConnectionError("TTS timeout"),
APIConnectionError and APIError are re-raised unchanged, and every other
exception is wrapped as APIConnectionError("Unexpected TTS error: ..."). -/
def ttsExcMap : Exc → Exc
  | .timeoutError => .apiConnectionError "TTS timeout"
  | .apiConnectionError m => .apiConnectionError m
  | .apiError m => .apiError m
  | .otherError m => .apiConnectionError ("Unexpected TTS error: " ++ m)

/-- The try/except chain in the body of safe_llm_chat (agent.py lines
321-345), analogous to `ttsExcMap`. -/
def llmExcMap : Exc → Exc
  | .timeoutError => .apiConnectionError "LLM timeout"
  | .apiConnectionError m => .apiConnectionError m
  | .apiError m => .apiError m
  | .otherError m => .apiConnectionError ("Unexpected LLM error: " ++ m)

/-- One attempt of safe_say (agent.py lines 220-254): sanitize the text;
if it is empty after sanitization skip the TTS call and return; otherwise
perform the TTS call (whose outcome for attempt `i` is `ttsCall i`, run
under asyncio.wait_for with a 30 second bound) and map its failure class
through the except chain. -/
def safeSayAttempt (text : String) (ttsCall : Nat → Except Exc Unit) (i : Nat) :
    Except Exc Unit :=
  if sanitize_for_tts text.toList = [] then .ok ()
  else
    match ttsCall i with
    | .ok u => .ok u
    | .error e => .error (ttsExcMap e)

/-- safe_say (agent.py lines 219-254): the attempt body wrapped in
retry_with_logging(max_attempts=3, wait_min=2, wait_max=8). -/
def safe_say (text : String) (ttsCall : Nat → Except Exc Unit) :
    Except Exc Unit × Nat :=
  retryLoop isRetryableExc (safeSayAttempt text ttsCall) 0 2

/-- One attempt of safe_llm_chat (agent.py lines 306-345): collect the
streamed response (outcome `llmCall i`, bounded by asyncio.wait_for); an
empty response raises APIError("Empty LLM response"), otherwise the
stripped text is returned; failures map through the except chain. -/
def safeLlmChatAttempt (llmCall : Nat → Except Exc String) (i : Nat) :
    Except Exc String :=
  match llmCall i with
  | .ok s =>
    if pyStrip s.toList = [] then .error (.apiError "Empty LLM response")
    else .ok (String.mk (pyStrip s.toList))
  | .error e => .error (llmExcMap e)

/-- safe_llm_chat (agent.py lines 305-345): the attempt body wrapped in
retry_with_logging(max_attempts=3, wait_min=1, wait_max=5). -/
def safe_llm_chat (llmCall : Nat → Except Exc String) :
    Except Exc String × Nat :=
  retryLoop isRetryableExc (safeLlmChatAttempt llmCall) 0 2

/- ============================================================
   Interview state (agent.py lines 96-113)
   ============================================================ -/

/-- One entry of the notes list written by flag_concern / note_strength
(agent.py lines 356-385). -/
structure NoteEntry where
  type : String
  content : String
  timestamp : String
  question_index : Nat
deriving DecidableEq, Repr

/-- One entry of conversation_history (agent.py lines 797-801). -/
structure HistoryEntry where
  role : String
  content : String
  timestamp : String
deriving DecidableEq, Repr

/-- The mutable session state (agent.py dataclass InterviewContext, lines
96-113).  The Python field `_interview_ended` is named `interview_ended`
here.  `start_time` is in seconds. -/
structure InterviewContext where
  candidate_name : String := "Candidate"
  config : InterviewConfig := defaultConfig
  core_questions : List String := []
  adaptive_questions : List String := []
  question_index : Nat := 0
  is_asking_followup : Bool := false
  notes : List NoteEntry := []
  filler_count : Nat := 0
  responses : List String := []
  start_time : ℚ := 0
  conversation_history : List HistoryEntry := []
  tts_retry_count : Nat := 0
  llm_retry_count : Nat := 0
  interview_ended : Bool := false
  interview_id : Option String := none
deriving DecidableEq, Repr

/-- The context the entrypoint builds for a default configuration
(agent.py lines 907-911): default config with its question set. -/
def initCtx : InterviewContext :=
  { candidate_name := "Candidate",
    config := defaultConfig,
    core_questions := get_questions_for_config defaultConfig }

/- ============================================================
   Filler tracking (agent.py lines 788-809)
   ============================================================ -/

/-- The filler vocabulary of on_user_speech_committed (agent.py line
805). -/
def FILLER_WORDS : List String :=
  ["um", "uh", "like", "you know", "sort of", "kind of"]

/-- The filler count of agent.py line 806:
sum(text.lower().count(f) for f in fillers) — a case-insensitive,
non-overlapping substring count with no token-boundary check. -/
def countFillers (text : List Char) : Nat :=
  (FILLER_WORDS.map (fun f => pyCount (pyLower text) f.toList)).sum

/-- on_user_speech_committed (agent.py lines 788-809): a blank utterance
is ignored; otherwise the raw text is appended to responses and to the
conversation history and the substring filler count is added to the
cumulative filler_count. -/
def on_user_speech_committed (ctx : InterviewContext) (text : String)
    (now : String) : InterviewContext :=
  if pyStrip text.toList = [] then ctx
  else
    { ctx with
      responses := ctx.responses ++ [text],
      conversation_history :=
        ctx.conversation_history ++ [{ role := "user", content := text, timestamp := now }],
      filler_count := ctx.filler_count + countFillers text.toList }

/- ============================================================
   advance_question (agent.py lines 472-486)
   ============================================================ -/

/-- advance_question (agent.py lines 472-486): unconditionally increment
question_index, then report either the next question or completion. -/
def advance_question (ctx : InterviewContext) : InterviewContext × String :=
  let ctx1 := { ctx with question_index := ctx.question_index + 1 }
  if ctx1.question_index < ctx1.core_questions.length then
    (ctx1, "State advanced. Next question: " ++ ctx1.core_questions.getD ctx1.question_index "")
  else
    (ctx1, "All core questions completed. End interview.")

/-- Iterated calls of advance_question (the tool can be invoked by the
LLM any number of times). -/
def advanceN : Nat → InterviewContext → InterviewContext
  | 0, ctx => ctx
  | n + 1, ctx => advanceN n (advance_question ctx).1

/- ============================================================
   Finalization pipeline (agent.py lines 489-735)
   ============================================================ -/

/-- The observable side-effect steps of end_interview, in source order:
summary aggregation (_summarize_interview), narrative feedback generation
(_generate_feedback), report persistence (_save_results), publication on
the data channel, remote upsert to the configured endpoint, the spoken
closing remarks, and the session end signal. -/
inductive Effect where
  | summarize
  | generateFeedback (feedback : String)
  | saveResults (feedback : String)
  | publishResults
  | upsertResults
  | sayClosing (feedback : String)
  | sessionEnd
deriving DecidableEq, Repr

/-- The generic fallback feedback returned when narrative generation fails
after its retries (agent.py lines 682-687). -/
def fallbackFeedback : String :=
  "Thank you for completing the interview. Your responses have been recorded. Due to a technical issue, detailed feedback could not be generated, but your interview data has been saved for review."

/-- _generate_feedback (agent.py lines 648-687), parametrized by the
outcome of its safe_llm_chat call: on success return the text (or
"Feedback unavailable." for an empty text); the enclosing
except-Exception handler turns any raised error into the generic fallback
message, so the function is total. -/
def generate_feedback (llm : Except Exc String) : String :=
  match llm with
  | .ok s => if s = "" then "Feedback unavailable." else s
  | .error _ => fallbackFeedback

/-- Result of one end_interview invocation: the updated state, the
side-effect trace, and the returned tool message. -/
structure EndResult where
  ctx : InterviewContext
  effects : List Effect
  message : String
deriving DecidableEq, Repr

/-- end_interview (agent.py lines 489-606), parametrized by the outcome
of the safe_llm_chat call inside _generate_feedback.  A duplicate call is
caught by the _interview_ended guard (lines 498-500): it only logs and
returns, producing no effects.  The first call sets the guard, aggregates
the summary, generates (or falls back on) the narrative feedback, saves
the report, publishes and upserts the results, delivers the closing
remarks and ends the session. -/
def end_interview (llm : Except Exc String) (ctx : InterviewContext) : EndResult :=
  if ctx.interview_ended then
    { ctx := ctx, effects := [], message := "Interview already ended" }
  else
    let ctx1 := { ctx with interview_ended := true }
    let fb := generate_feedback llm
    { ctx := ctx1,
      effects := [Effect.summarize, Effect.generateFeedback fb, Effect.saveResults fb,
                  Effect.publishResults, Effect.upsertResults, Effect.sayClosing fb,
                  Effect.sessionEnd],
      message := "Interview completed successfully." }

/- ============================================================
   Session keep-alive and wall-clock cap (agent.py lines 37-38, 964-979)
   ============================================================ -/

/-- Global timeout for max interview duration, two hours in seconds
(agent.py line 38). -/
def MAX_INTERVIEW_DURATION : ℚ := 7200

/-- The except-asyncio.TimeoutError branch of the entrypoint keep-alive
(agent.py lines 970-975): log a warning and call session.end(); nothing
else runs, and the interview state is not touched. -/
def sessionTimeoutHandler (ctx : InterviewContext) : InterviewContext × List Effect :=
  (ctx, [Effect.sessionEnd])

/-- The keep-alive of the entrypoint (agent.py lines 964-979): the worker
waits on an event that is never set under an asyncio.wait_for bound of
MAX_INTERVIEW_DURATION, so once the session wall clock reaches the cap
the TimeoutError branch fires. -/
def keep_alive (elapsed : ℚ) (ctx : InterviewContext) :
    InterviewContext × List Effect :=
  if MAX_INTERVIEW_DURATION ≤ elapsed then sessionTimeoutHandler ctx
  else (ctx, [])

/- ============================================================
   Heuristic transcript summary (app.py lines 33-46 and
   summary_agent.py lines 12-25, which implement the same function)
   ============================================================ -/

/-- One transcript entry (app.py class Entry). -/
structure Entry where
  who : String
  text : String
  ts : Int
deriving DecidableEq, Repr

/-- The summary record (app.py class SummaryOut). -/
structure SummaryOut where
  score : Int
  tone : String
  pacing : String
  notes : String
deriving DecidableEq, Repr

/-- The user entries of the transcript (app.py line 34). -/
def userEntries (entries : List Entry) : List Entry :=
  entries.filter (fun e => e.who == "User")

/-- total_user_words (app.py line 35): len(re.findall(r"\S+", text)) is
the number of whitespace-separated tokens of each user entry. -/
def totalUserWords (entries : List Entry) : Nat :=
  ((userEntries entries).map (fun e => (pySplit e.text.toList).length)).sum

/-- avg_words (app.py line 36): the mean word count over user entries, or
0 when there are none. -/
def avgWords (entries : List Entry) : ℚ :=
  if (userEntries entries).length = 0 then 0
  else (totalUserWords entries : ℚ) / ((userEntries entries).length : ℚ)

/-- pacing (app.py line 37). -/
def summaryPacing (entries : List Entry) : String :=
  if avgWords entries < 8 then "Slow"
  else if avgWords entries < 20 then "Good"
  else "Fast"

/-- text_all (app.py line 38): all entry texts joined with spaces, then
lowercased. -/
def summaryTextAll (entries : List Entry) : List Char :=
  pyLower (joinSpace (entries.map (fun e => e.text.toList)))

/-- re.search(r"thank|great|excellent|awesome|confident", text_all)
(app.py line 40): an alternation of plain literals, i.e. substring
containment of any of them. -/
def positiveSearch (s : List Char) : Bool :=
  containsSub s (String.toList "thank")
  || containsSub s (String.toList "great")
  || containsSub s (String.toList "excellent")
  || containsSub s (String.toList "awesome")
  || containsSub s (String.toList "confident")

/-- re.search of the hesitation pattern (app.py line 42):
um and uh carry word boundaries on both sides, like and maybe only a
trailing boundary, and sorry is a plain substring. -/
def hesitantSearch (s : List Char) : Bool :=
  regexLitSearch s (String.toList "um") true true
  || regexLitSearch s (String.toList "uh") true true
  || regexLitSearch s (String.toList "like") false true
  || regexLitSearch s (String.toList "maybe") false true
  || containsSub s (String.toList "sorry")

/-- tone (app.py lines 39-43): Neutral by default, overwritten by
Positive on a positive match and then by Hesitant on a hesitation match
(the two ifs are sequential, so Hesitant wins when both match). -/
def summaryTone (entries : List Entry) : String :=
  if hesitantSearch (summaryTextAll entries) then "Hesitant"
  else if positiveSearch (summaryTextAll entries) then "Positive"
  else "Neutral"

/-- score (app.py line 44):
int(min(100, max(0, 40 + len(user_entries) * 8 + min(20, avg_words)))).
The value inside int() is at least 40, so Python truncation agrees with
the floor. -/
def summaryScore (entries : List Entry) : Int :=
  ⌊min 100 (max 0 ((40 : ℚ) + 8 * ((userEntries entries).length : ℚ)
      + min 20 (avgWords entries)))⌋

/-- notes (app.py line 45): the last three user entries as bullets. -/
def summaryNotes (entries : List Entry) : String :=
  String.intercalate "\n" ((lastN 3 (userEntries entries)).map (fun e => "• " ++ e.text))

/-- local_summarize (app.py lines 33-46; summary_agent.py lines 12-25 is
the same computation over plain dicts). -/
def local_summarize (entries : List Entry) : SummaryOut :=
  { score := summaryScore entries,
    tone := summaryTone entries,
    pacing := summaryPacing entries,
    notes := summaryNotes entries }

/- ============================================================
   ResponseScorer.quality_verdict
   ============================================================ -/

/-- Modelled from the spec: the fixed phrase tables of quality_verdict
(spec section 4.2).  No implementation of ResponseScorer.quality_verdict
exists under src/; the spec prescribes its vocabularies as replaceable
configuration tables, so they are parameters of the model. -/
structure VerdictTables where
  concreteResultPhrases : List String
  vaguePhrases : List String

/-- The verdict triple of quality_verdict: pass flag, feedback text,
clamped score. -/
structure Verdict where
  passed : Bool
  feedback : String
  score : Int
deriving DecidableEq, Repr

/-- Modelled from the spec: the unclamped score of
ResponseScorer.quality_verdict (spec section 4.2), which has no
implementation under src/.  Base 50; word-count bands (<30 words: -20,
>80 words: +15); filler bands (>5: -15, 3 to 5: -8); +20 if a
concrete-result phrase appears else -15; -5 per occurrence of a vague
phrase.  Matching is case-insensitive substring containment. -/
def qualityRawScore (tb : VerdictTables) (text : String) (filler_count : Nat) : Int :=
  let lower := pyLower text.toList
  let words := (pySplit lower).length
  50 + (if words < 30 then -20 else 0)
     + (if 80 < words then 15 else 0)
     + (if 5 < filler_count then -15 else if 3 ≤ filler_count then -8 else 0)
     + (if tb.concreteResultPhrases.any (fun p => containsSub lower (pyLower p.toList))
        then 20 else -15)
     - 5 * ((tb.vaguePhrases.map (fun p => pyCount lower (pyLower p.toList))).sum : Int)

/-- Modelled from the spec: the rationale fragments of quality_verdict
(spec section 4.2), concatenated with the numeric score. -/
def qualityFeedback (tb : VerdictTables) (text : String) (score : Int) : String :=
  let lower := pyLower text.toList
  let words := (pySplit lower).length
  String.intercalate " "
    (((if words < 30 then ["too short"] else []) ++
      (if 80 < words then ["good length"] else []) ++
      (if tb.concreteResultPhrases.any (fun p => containsSub lower (pyLower p.toList))
       then [] else ["lacks specifics"])) ++ [toString score])

/-- Modelled from the spec: ResponseScorer.quality_verdict (spec section
4.2), which has no implementation under src/: clamp the raw score to
[0,100] and pass exactly when the clamped score reaches 60. -/
def quality_verdict (tb : VerdictTables) (text : String) (filler_count : Nat) : Verdict :=
  let score := max 0 (min 100 (qualityRawScore tb text filler_count))
  { passed := decide (60 ≤ score),
    feedback := qualityFeedback tb text score,
    score := score }

/- ============================================================
   Evaluation checks of the embedding on concrete inputs
   ============================================================ -/

example : pySplit (String.toList "  hello   world ") =
    [String.toList "hello", String.toList "world"] := by decide
example : pyStrip (String.toList "  a b  ") = String.toList "a b" := by decide
example : pyCount (String.toList "aaaa") (String.toList "aa") = 2 := by decide
example : pyCount (String.toList "umbrella") (String.toList "um") = 1 := by decide
example : pyReplace (String.toList "a!!b!!") (String.toList "!!") (String.toList "!") =
    String.toList "a!b!" := by decide
example : pyTake 2 [1, 2, 3] = [1, 2] := by decide
example : pyTake (-1) [1, 2, 3] = [1, 2] := by decide
example : regexLitSearch (String.toList "umbrella") (String.toList "um") true true = false := by
  decide
example : regexLitSearch (String.toList "an um here") (String.toList "um") true true = true := by
  decide
example : entrypoint_questions "general" 5 = some generalQuestions := by decide
example : sanitize_for_tts (String.toList "Hello   world") =
    String.toList "Hello world." := by decide
example : sanitize_for_tts (String.toList "   ") = [] := by decide
example : sanitize_for_tts (String.toList "Done!!") = String.toList "Done!" := by decide

/- ============================================================
   Helper lemmas
   ============================================================ -/

/-- A list all of whose elements satisfy `p` is emptied by dropWhile. -/
theorem dropWhile_eq_nil_of_forall {p : Char → Bool} :
    ∀ l : List Char, (∀ c ∈ l, p c = true) → l.dropWhile p = []
  | [], _ => rfl
  | c :: t, h => by
    rw [List.dropWhile_cons, if_pos (h c (List.mem_cons_self c t))]
    exact dropWhile_eq_nil_of_forall t (fun x hx => h x (List.mem_cons_of_mem c hx))

/-- dropWhile keeps the last element when that element fails the
predicate. -/
theorem getLast?_dropWhile_of_ne {p : Char → Bool} :
    ∀ (l : List Char) (c : Char), l.getLast? = some c → p c = false →
      (l.dropWhile p).getLast? = some c
  | [], c, h, _ => by simp at h
  | [a], c, h, hc => by
    simp at h
    subst h
    simp [List.dropWhile_cons, hc]
  | a :: b :: t, c, h, hc => by
    have h' : (b :: t).getLast? = some c := by
      simpa [List.getLast?_cons_cons] using h
    by_cases hp : p a
    · rw [List.dropWhile_cons, if_pos hp]
      exact getLast?_dropWhile_of_ne (b :: t) c h' hc
    · rw [List.dropWhile_cons, if_neg hp, List.getLast?_cons_cons]
      exact h'

/-- Dropping a trailing run of `p`-characters is the identity when the
last character fails `p`. -/
theorem dropTrailing_eq_self {p : Char → Bool} (l : List Char) (c : Char)
    (h : l.getLast? = some c) (hc : p c = false) :
    (l.reverse.dropWhile p).reverse = l := by
  have hh : l.reverse.head? = some c := by
    rw [List.head?_reverse]; exact h
  cases hr : l.reverse with
  | nil => rw [hr] at hh; simp at hh
  | cons a t =>
    rw [hr] at hh
    simp at hh
    subst hh
    rw [List.dropWhile_cons, if_neg (by simp [hc])]
    rw [← hr, List.reverse_reverse]

/-- pyStrip keeps the last character when it is not whitespace. -/
theorem pyStrip_getLast (l : List Char) (c : Char)
    (h : l.getLast? = some c) (hc : pyIsSpace c = false) :
    (pyStrip l).getLast? = some c := by
  unfold pyStrip
  have h1 : (l.dropWhile pyIsSpace).getLast? = some c :=
    getLast?_dropWhile_of_ne l c h hc
  rw [dropTrailing_eq_self (l.dropWhile pyIsSpace) c h1 hc]
  exact h1

/-- The sentence-ending fix leaves either an empty text or a text whose
last character is a sentence terminator. -/
theorem ensureEnding_terminated (t : List Char) :
    ensureEnding t = [] ∨
    ∃ c, (ensureEnding t).getLast? = some c ∧ (c = '.' ∨ c = '!' ∨ c = '?') := by
  unfold ensureEnding
  cases ht : t.getLast? with
  | none =>
    left
    cases t with
    | nil => rfl
    | cons a t' => simp at ht
  | some c =>
    by_cases hc : (c = '.' || c = '!' || c = '?') = true
    · right
      refine ⟨c, ?_, or_assoc.mp (by simpa using hc)⟩
      simp [hc]
      exact ht
    · right
      refine ⟨'.', ?_, Or.inl rfl⟩
      simp [hc]

/-- Both branches of advance_question return the state with the index
incremented by one. -/
theorem advance_question_fst (ctx : InterviewContext) :
    (advance_question ctx).1 = { ctx with question_index := ctx.question_index + 1 } := by
  by_cases h : ctx.question_index + 1 < ctx.core_questions.length <;>
    simp [advance_question, h]

/-- The retry loop makes at most fuel + 1 attempts. -/
theorem retryLoop_attempts_le {α : Type} (isR : Exc → Bool) (f : Nat → Except Exc α) :
    ∀ (fuel i : Nat), (retryLoop isR f i fuel).2 ≤ fuel + 1 := by
  intro fuel
  induction fuel with
  | zero =>
    intro i
    cases h : f i <;> simp [retryLoop, h]
  | succ k ih =>
    intro i
    cases h : f i with
    | ok a => simp [retryLoop, h]
    | error e =>
      by_cases hr : isR e
      · have := ih (i + 1)
        simp [retryLoop, h, hr]
        omega
      · simp [retryLoop, h, hr]

/-- Every failure class leaving the safe_say attempt body is retried by
the decorator: the except chain wraps everything into the retried
classes. -/
theorem ttsExcMap_retryable (e : Exc) : isRetryableExc (ttsExcMap e) = true := by
  cases e <;> rfl

/-- Every failure class leaving the safe_llm_chat attempt body is retried
by the decorator. -/
theorem llmExcMap_retryable (e : Exc) : isRetryableExc (llmExcMap e) = true := by
  cases e <;> rfl

/- ============================================================
   Claim theorems
   ============================================================ -/

/-- C1 counterexample: the session configuration input with category
"manager" (an unknown category string) makes InterviewType(...) in the
entrypoint raise ValueError (modelled as none), so the configuration is
not silently normalized and the session does not proceed with the
general-purpose question set. -/
theorem C1_unknown_category_raises :
    entrypoint_questions "manager" 5 = none ∧
    entrypoint_questions "manager" 5 ≠ some generalQuestions := by
  decide

/-- C1 (amended): the entrypoint selects a question list exactly for the
category strings that are valid InterviewType values — an unknown
category string raises instead of falling back — and for every valid
category value the selection succeeds with the bank entry of that
category (which itself falls back to the general set only for a type
missing from the bank) truncated to the requested count. -/
theorem C1_category_parse_then_select :
    ∀ (s : String) (n : Int),
      ((entrypoint_questions s n).isSome ↔ (interviewTypeOfString s).isSome) ∧
      (∀ t : InterviewType,
        entrypoint_questions (InterviewType.value t) n =
          some (pyTake n (questionBankGet t))) := by
  intro s n
  constructor
  · cases hs : interviewTypeOfString s <;> simp [entrypoint_questions, hs]
  · intro t
    cases t <;> rfl

/-- C2: finalization is idempotent — whatever the outcomes of the LLM
calls in the two invocations, a second end_interview trigger on the state
left by the first one changes nothing, performs none of the finalization
steps (summary aggregation, report persistence, remote delivery, closing
remarks) and only returns the logged already-ended message. -/
theorem C2_end_interview_idempotent :
    ∀ (llm1 llm2 : Except Exc String) (ctx : InterviewContext),
      end_interview llm2 (end_interview llm1 ctx).ctx =
        { ctx := (end_interview llm1 ctx).ctx, effects := [],
          message := "Interview already ended" } := by
  intro llm1 llm2 ctx
  by_cases h : ctx.interview_ended <;> simp [end_interview, h]

/-- C3 counterexample: the filler detector counts "um" inside the
unrelated word "umbrella" and "like" inside "likely", so a filler
expression is not required to appear as a standalone token. -/
theorem C3_embedded_fillers_counted :
    countFillers (String.toList "umbrella") = 1 ∧
    countFillers (String.toList "likely") = 1 := by
  decide

/-- C3 (amended): for every non-blank utterance, handling the committed
speech adds to the cumulative filler count the case-insensitive
non-overlapping substring count of the filler expressions — occurrences
embedded inside unrelated words included — and appends the utterance to
the recorded responses; no per-expression match list is produced. -/
theorem C3_speech_adds_substring_count :
    ∀ (ctx : InterviewContext) (text now : String),
      pyStrip text.toList ≠ [] →
      (on_user_speech_committed ctx text now).filler_count =
          ctx.filler_count + countFillers text.toList ∧
      (on_user_speech_committed ctx text now).responses = ctx.responses ++ [text] := by
  intro ctx text now h
  unfold on_user_speech_committed
  rw [if_neg h]
  exact ⟨rfl, rfl⟩

/-- C3 witness: the amended statement evaluated on a concrete
utterance. -/
theorem C3_speech_adds_substring_count_witness :
    pyStrip (String.toList "Um, I think this is, like, fine") ≠ [] ∧
    (on_user_speech_committed initCtx "Um, I think this is, like, fine" "t0").filler_count =
      initCtx.filler_count + countFillers (String.toList "Um, I think this is, like, fine") :=
  ⟨by decide,
   (C3_speech_adds_substring_count initCtx "Um, I think this is, like, fine" "t0"
      (by decide)).1⟩

/-- C4 counterexample: when the wall clock reaches the two-hour cap the
keep-alive timeout branch only ends the session — it performs no summary
aggregation, persists no report and generates no feedback, and the state
is not marked ended, so the full finalization sequence is not executed. -/
theorem C4_timeout_skips_finalization :
    (keep_alive 7200 initCtx).2 = [Effect.sessionEnd] ∧
    Effect.summarize ∉ (keep_alive 7200 initCtx).2 ∧
    (keep_alive 7200 initCtx).1.interview_ended = false := by
  decide

/-- C4 (amended): a session that exceeds the hard two-hour wall-clock cap
is ended immediately — the timeout branch emits only the session-end
signal, leaving the interview state (phase, question index, ended flag)
untouched, without executing the finalization sequence. -/
theorem C4_cap_ends_without_finalize :
    ∀ (elapsed : ℚ) (ctx : InterviewContext),
      MAX_INTERVIEW_DURATION ≤ elapsed →
      keep_alive elapsed ctx = (ctx, [Effect.sessionEnd]) := by
  intro elapsed ctx h
  simp [keep_alive, sessionTimeoutHandler, h]

/-- C4 witness: the amended statement evaluated at the cap itself. -/
theorem C4_cap_ends_without_finalize_witness :
    MAX_INTERVIEW_DURATION ≤ (7200 : ℚ) ∧
    keep_alive 7200 initCtx = (initCtx, [Effect.sessionEnd]) :=
  ⟨le_refl _, C4_cap_ends_without_finalize 7200 initCtx (le_refl _)⟩

/-- C5 counterexample: a non-transient failure (an exception outside the
connection/timeout/API classes, e.g. a validation error) raised inside a
safe_say attempt is not re-raised immediately: the body wraps it into
APIConnectionError, so the call is attempted all 3 times and the error
finally surfaced is the wrapped one, not the original. -/
theorem C5_nontransient_is_retried :
    (safe_say "hello" (fun _ => Except.error (Exc.otherError "validation error"))).2 = 3 ∧
    (safe_say "hello" (fun _ => Except.error (Exc.otherError "validation error"))).2 ≠ 1 ∧
    (safe_say "hello" (fun _ => Except.error (Exc.otherError "validation error"))).1 =
      Except.error (Exc.apiConnectionError "Unexpected TTS error: validation error") := by
  decide

/-- C5 (amended): the retry wrapper makes at most 3 attempts and, on
exhaustion, re-raises the last error; the decorator itself re-raises a
non-retryable class immediately after one attempt, but the safe_say and
safe_llm_chat bodies map every failure (timeouts and unexpected
exceptions included) into the retried classes APIConnectionError and
APIError, so every failing outbound call is retried up to the attempt
limit before the mapped error reaches the caller. -/
theorem C5_retry_policy :
    (∀ (text : String) (ttsCall : Nat → Except Exc Unit), (safe_say text ttsCall).2 ≤ 3) ∧
    (∀ e : Exc, isRetryableExc (ttsExcMap e) = true) ∧
    (∀ e : Exc, isRetryableExc (llmExcMap e) = true) ∧
    (∀ (α : Type) (f : Nat → Except Exc α) (e : Exc),
        isRetryableExc e = false → f 0 = Except.error e →
        retry_with_logging f = (Except.error e, 1)) ∧
    (∀ (text : String) (ttsCall : Nat → Except Exc Unit) (e : Exc),
        sanitize_for_tts text.toList ≠ [] → (∀ i, ttsCall i = Except.error e) →
        safe_say text ttsCall = (Except.error (ttsExcMap e), 3)) := by
  refine ⟨?_, ttsExcMap_retryable, llmExcMap_retryable, ?_, ?_⟩
  · intro text ttsCall
    exact retryLoop_attempts_le isRetryableExc (safeSayAttempt text ttsCall) 2 0
  · intro α f e hnr hf
    unfold retry_with_logging
    simp [retryLoop, hf, hnr]
  · intro text ttsCall e hs hIO
    have hatt : ∀ i, safeSayAttempt text ttsCall i = Except.error (ttsExcMap e) := by
      intro i
      unfold safeSayAttempt
      rw [if_neg hs, hIO i]
    simp [safe_say, retryLoop, hatt, ttsExcMap_retryable e]

/-- C5 witness: a persistently timing-out TTS call is attempted 3 times
and the mapped last error is re-raised. -/
theorem C5_retry_policy_witness :
    sanitize_for_tts (String.toList "hello") ≠ [] ∧
    safe_say "hello" (fun _ => Except.error Exc.timeoutError) =
      (Except.error (Exc.apiConnectionError "TTS timeout"), 3) :=
  ⟨by decide,
   C5_retry_policy.2.2.2.2 "hello" (fun _ => Except.error Exc.timeoutError)
     Exc.timeoutError (by decide) (fun _ => rfl)⟩

/-- C6: when narrative-feedback generation fails after its retries (the
safe_llm_chat outcome is an error), finalization still succeeds — the
generic fallback message is substituted, the feedback step is total (no
exception escapes it, by type), the report persistence step still runs
with the fallback text, and end_interview completes normally. -/
theorem C6_feedback_fallback_report_saved :
    ∀ (e : Exc) (ctx : InterviewContext),
      ctx.interview_ended = false →
      generate_feedback (Except.error e) = fallbackFeedback ∧
      Effect.saveResults fallbackFeedback ∈ (end_interview (Except.error e) ctx).effects ∧
      (end_interview (Except.error e) ctx).message = "Interview completed successfully." := by
  intro e ctx h
  refine ⟨rfl, ?_, ?_⟩ <;> simp [end_interview, h, generate_feedback]

/-- C6 witness: the statement evaluated on the initial context with a
timed-out LLM call. -/
theorem C6_feedback_fallback_report_saved_witness :
    initCtx.interview_ended = false ∧
    Effect.saveResults fallbackFeedback ∈
      (end_interview (Except.error Exc.timeoutError) initCtx).effects :=
  ⟨rfl, (C6_feedback_fallback_report_saved Exc.timeoutError initCtx rfl).2.1⟩

/-- C7 counterexample: with the default five-question session, six calls
of advance_question drive current_question_index to 6, strictly above the
number of questions, so the invariant current_question_index ≤
len(questions) does not hold in every reachable state. -/
theorem C7_index_exceeds_questions :
    initCtx.core_questions.length = 5 ∧
    (advanceN 6 initCtx).question_index = 6 ∧
    ¬ ((advanceN 6 initCtx).question_index ≤ initCtx.core_questions.length) := by
  decide

/-- C7 (amended): advance_question increments the question index
unconditionally and without an upper bound — n calls add exactly n — and
it never modifies the question list or the ended flag; the session being
ended is tracked by the separate end_interview guard flag, not by the
index reaching the question count. -/
theorem C7_advance_increments_unboundedly :
    ∀ (n : Nat) (ctx : InterviewContext),
      (advanceN n ctx).question_index = ctx.question_index + n ∧
      (advanceN n ctx).core_questions = ctx.core_questions ∧
      (advanceN n ctx).interview_ended = ctx.interview_ended := by
  intro n
  induction n with
  | zero => intro ctx; simp [advanceN]
  | succ k ih =>
    intro ctx
    have h := ih { ctx with question_index := ctx.question_index + 1 }
    have hgoal : advanceN (k + 1) ctx =
        advanceN k { ctx with question_index := ctx.question_index + 1 } := by
      show advanceN k (advance_question ctx).1 = _
      rw [advance_question_fst ctx]
    rw [hgoal]
    refine ⟨?_, h.2.1, h.2.2⟩
    calc (advanceN k { ctx with question_index := ctx.question_index + 1 }).question_index
        = ctx.question_index + 1 + k := h.1
      _ = ctx.question_index + (k + 1) := by omega

/-- C8: for every phrase table, response text and filler count, the
quality_verdict score lies in [0,100] after clamping and the passed flag
holds exactly when the score is at least 60.  (spec-modelled: no
implementation of quality_verdict exists under src/.) -/
theorem C8_quality_verdict_range_passed :
    ∀ (tb : VerdictTables) (text : String) (filler_count : Nat),
      0 ≤ (quality_verdict tb text filler_count).score ∧
      (quality_verdict tb text filler_count).score ≤ 100 ∧
      ((quality_verdict tb text filler_count).passed = true ↔
        60 ≤ (quality_verdict tb text filler_count).score) := by
  intro tb text fc
  have hs : (quality_verdict tb text fc).score =
      max 0 (min 100 (qualityRawScore tb text fc)) := rfl
  have hp : (quality_verdict tb text fc).passed =
      decide (60 ≤ max 0 (min 100 (qualityRawScore tb text fc))) := rfl
  refine ⟨?_, ?_, ?_⟩
  · rw [hs]; exact le_max_left 0 _
  · rw [hs]; exact max_le (by norm_num) (min_le_left _ _)
  · rw [hs, hp]; exact decide_eq_true_iff

/-- C9: sanitize_for_tts returns either the empty string or a string
whose last character is a sentence terminator, and an empty or
whitespace-only input always yields the empty string, so text handed to
TTS is never an unterminated non-empty fragment. -/
theorem C9_sanitize_terminated_or_empty :
    ∀ text : List Char,
      (sanitize_for_tts text = [] ∨
        ∃ c, (sanitize_for_tts text).getLast? = some c ∧
          (c = '.' ∨ c = '!' ∨ c = '?')) ∧
      ((∀ c ∈ text, pyIsSpace c = true) → sanitize_for_tts text = []) := by
  intro text
  constructor
  · by_cases h0 : text = []
    · left; simp [sanitize_for_tts, h0]
    · rcases ensureEnding_terminated (ttsReplaceAll (joinSpace (pySplit text))) with
        he | ⟨c, hlast, hc⟩
      · left
        unfold sanitize_for_tts
        rw [if_neg h0, he]
        rfl
      · right
        refine ⟨c, ?_, hc⟩
        have hcsp : pyIsSpace c = false := by
          rcases hc with h | h | h <;> subst h <;> decide
        unfold sanitize_for_tts
        rw [if_neg h0]
        exact pyStrip_getLast _ c hlast hcsp
  · intro hall
    by_cases h0 : text = []
    · simp [sanitize_for_tts, h0]
    · have hsplit : pySplit text = [] := by
        unfold pySplit
        cases text with
        | nil => rfl
        | cons a t =>
          have hd : (a :: t).dropWhile pyIsSpace = [] :=
            dropWhile_eq_nil_of_forall _ hall
          simp [pySplitAux, hd]
      unfold sanitize_for_tts
      rw [if_neg h0, hsplit]
      decide

/-- C9 witness: a whitespace-only input yields the empty string. -/
theorem C9_sanitize_witness :
    (∀ c ∈ String.toList "   ", pyIsSpace c = true) ∧
    sanitize_for_tts (String.toList "   ") = [] :=
  ⟨by decide, (C9_sanitize_terminated_or_empty (String.toList "   ")).2 (by decide)⟩

/-- C10: local_summarize is total and deterministic (a pure function);
for every transcript, the score is an integer in [0,100], the pacing is
one of Slow/Good/Fast, the tone is one of Neutral/Positive/Hesitant, and
with no user entries the score is exactly 40 and the pacing is Slow. -/
theorem C10_local_summarize_total_range :
    ∀ entries : List Entry,
      (0 ≤ (local_summarize entries).score ∧ (local_summarize entries).score ≤ 100) ∧
      (local_summarize entries).pacing ∈ (["Slow", "Good", "Fast"] : List String) ∧
      (local_summarize entries).tone ∈ (["Neutral", "Positive", "Hesitant"] : List String) ∧
      (userEntries entries = [] →
        (local_summarize entries).score = 40 ∧
        (local_summarize entries).pacing = "Slow") := by
  intro entries
  have hsc : (local_summarize entries).score = summaryScore entries := rfl
  have hpc : (local_summarize entries).pacing = summaryPacing entries := rfl
  have htn : (local_summarize entries).tone = summaryTone entries := rfl
  refine ⟨⟨?_, ?_⟩, ?_, ?_, ?_⟩
  · rw [hsc]
    unfold summaryScore
    exact Int.floor_nonneg.mpr (le_min (by norm_num) (le_max_left _ _))
  · rw [hsc]
    unfold summaryScore
    calc ⌊min 100 (max 0 ((40 : ℚ) + 8 * ((userEntries entries).length : ℚ)
          + min 20 (avgWords entries)))⌋
        ≤ ⌊(100 : ℚ)⌋ := Int.floor_le_floor (min_le_left _ _)
      _ = 100 := by norm_num
  · rw [hpc]
    unfold summaryPacing
    by_cases h1 : avgWords entries < 8
    · rw [if_pos h1]; simp
    · rw [if_neg h1]
      by_cases h2 : avgWords entries < 20
      · rw [if_pos h2]; simp
      · rw [if_neg h2]; simp
  · rw [htn]
    unfold summaryTone
    by_cases h1 : hesitantSearch (summaryTextAll entries) = true
    · rw [if_pos h1]; simp
    · rw [if_neg h1]
      by_cases h2 : positiveSearch (summaryTextAll entries) = true
      · rw [if_pos h2]; simp
      · rw [if_neg h2]; simp
  · intro hu
    have havg : avgWords entries = 0 := by
      unfold avgWords
      rw [hu]
      simp
    have h20 : min (20 : ℚ) 0 = 0 := min_eq_right (by norm_num)
    constructor
    · rw [hsc]
      unfold summaryScore
      rw [havg, hu, h20]
      have e1 : (40 : ℚ) + 8 * ((([] : List Entry).length : ℚ)) + 0 = 40 := by simp
      rw [e1, max_eq_right (by norm_num : (0 : ℚ) ≤ 40),
        min_eq_right (by norm_num : (40 : ℚ) ≤ 100)]
      norm_num
    · rw [hpc]
      unfold summaryPacing
      rw [havg, if_pos (by norm_num : (0 : ℚ) < 8)]

/-- C10 witness: a transcript with no user entries scores exactly 40 with
Slow pacing. -/
theorem C10_local_summarize_witness :
    userEntries [{ who := "AI", text := "Hello there", ts := 0 }] = [] ∧
    ((local_summarize [{ who := "AI", text := "Hello there", ts := 0 }]).score = 40 ∧
     (local_summarize [{ who := "AI", text := "Hello there", ts := 0 }]).pacing = "Slow") :=
  ⟨by decide,
   (C10_local_summarize_total_range [{ who := "AI", text := "Hello there", ts := 0 }]).2.2.2
     (by decide)⟩
